import Mathlib

/-!
# Verification of the PDF-QA backend (`src/app.py`)

Shallow embedding of the text-extraction and request-orchestration pipeline
of the Flask application in `src/app.py`:

* `extract_text_from_pdf` — the two-engine PDF extractor (PyMuPDF first when
  available, PyPDF2 as fallback) with the 10,000-character early-stop check;
* `extract_text_from_docx` — the paragraph-concatenating DOCX extractor;
* `ask_groq_request` / `summarize_text_request` — the chat-completion payloads
  built by `ask_groq` and `summarize_text`;
* `ask`, `qa`, `summarize` — the three POST route handlers, modelled as pure
  functions over an environment of external-library outcomes (`AskEnv`) and an
  explicit file-system state (the list of paths present in the upload folder).

External libraries (fitz, PyPDF2, python-docx, requests, groq, werkzeug's
`secure_filename`) are not part of this repository; their behaviour enters the
model as environment data: per-page extraction outcomes, fetch results, and
the sanitiser function itself.  Machine-level details (bytes on disk, HTTP
transport) are abstracted; strings are Lean `String`s over the same character
data Python manipulates.
-/

namespace PDFQA

/-! ## Python string primitives

`str.strip()` with no argument removes leading and trailing whitespace;
for the ASCII range that is space, tab, newline, carriage return, vertical
tab and form feed.  `str.lower()` lowercases each character and
`str.endswith(suffix)` is a suffix test on characters. -/

/-- Characters removed by Python's `str.strip()` (ASCII whitespace). -/
def isPySpace (c : Char) : Bool :=
  c = ' ' || c = '\t' || c = '\n' || c = '\r' || c = '\x0b' || c = '\x0c'

/-- Core of `str.strip()` on the character list: drop whitespace from the
front, then from the back. -/
def stripCore (l : List Char) : List Char :=
  ((l.dropWhile isPySpace).reverse.dropWhile isPySpace).reverse

/-- Python's `s.strip()`. -/
def pyStrip (s : String) : String := String.mk (stripCore s.data)

/-- `s` consists only of whitespace (so `s.strip() == ""`); includes `""`. -/
def pyBlank (s : String) : Bool := s.data.all isPySpace

/-- Python's `s.lower()` (ASCII case folding suffices for the extensions
compared in the code). -/
def pyLower (s : String) : String := String.mk (s.data.map Char.toLower)

/-- Python's `s.endswith(suffix)`. -/
def pyEndsWith (s suffix : String) : Bool := suffix.data.isSuffixOf s.data

theorem pyStrip_empty : pyStrip "" = "" := rfl

theorem pyStrip_of_blank {s : String} (h : pyBlank s = true) : pyStrip s = "" := by
  have hdrop : s.data.dropWhile isPySpace = [] := by
    rw [List.dropWhile_eq_nil_iff]
    intro x hx
    exact List.all_eq_true.mp h x hx
  apply String.ext
  simp [pyStrip, stripCore, hdrop]

theorem pyStrip_length_le (s : String) : (pyStrip s).length ≤ s.length := by
  show (stripCore s.data).length ≤ s.data.length
  unfold stripCore
  calc (((s.data.dropWhile isPySpace).reverse.dropWhile isPySpace).reverse).length
      = (((s.data.dropWhile isPySpace).reverse.dropWhile isPySpace)).length := by
        simp
    _ ≤ ((s.data.dropWhile isPySpace).reverse).length :=
        (List.dropWhile_sublist _).length_le
    _ = (s.data.dropWhile isPySpace).length := by simp
    _ ≤ s.data.length := (List.dropWhile_sublist _).length_le

/-- Dropping a trailing whitespace character does not change `strip`. -/
theorem stripCore_append_ws {c : Char} (hc : isPySpace c = true) (l : List Char) :
    stripCore (l ++ [c]) = stripCore l := by
  unfold stripCore
  rw [List.dropWhile_append]
  by_cases h : (l.dropWhile isPySpace).isEmpty = true
  · rw [if_pos h]
    rw [List.isEmpty_iff] at h
    simp [h, List.dropWhile_cons_of_pos, hc]
  · rw [if_neg h]
    rw [List.reverse_append]
    simp [List.dropWhile_cons_of_pos, hc]

theorem pyStrip_append_newline (s : String) : pyStrip (s ++ "\n") = pyStrip s := by
  apply String.ext
  show stripCore (s ++ "\n").data = stripCore s.data
  rw [String.data_append]
  exact stripCore_append_ws (by decide) s.data

/-! ## PDF extraction (`extract_text_from_pdf`, src/app.py lines 40–75)

The Python function keeps one shared `text` accumulator.  When PyMuPDF is
available it loops over the pages appending `page.get_text()`, breaking once
`len(text) > 10000`, and returns `text.strip()`; if anything in that `try`
block throws, the accumulated partial text is **kept** and the PyPDF2 loop
continues appending to it.  The PyPDF2 loop appends
`page.extract_text() or ""` per page, with a per-page `try/except: continue`
and the same `len(text) > 10000` break; if opening/parsing/iterating the
document throws outside the per-page handler, a `RuntimeError` is raised.

Environment data: `muResult` is the outcome of the whole PyMuPDF `try` block
(`.ok pages` = every page read cleanly, `.error partial` = some step threw
after `partial` text had been accumulated); `pyDoc` is `.ok pages` when
PyPDF2 opens and iterates the document (each page either yields
`Option String`, `none` modelling `extract_text()` returning `None`, or
throws, modelled `.error ()`), and `.error ()` when the document-level
open/parse/iteration throws. -/

/-- The character count at which both page loops stop early
(`if len(text) > 10000: break`). -/
def PDF_CAP : Nat := 10000

/-- The PyMuPDF page loop: `text += page.get_text()` then break once over the
cap. -/
def muLoop (acc : String) : List String → String
  | [] => acc
  | t :: rest =>
    let acc2 := acc ++ t
    if acc2.length > PDF_CAP then acc2 else muLoop acc2 rest

/-- One PyPDF2 page: either throws (`.error ()`), or returns
`extract_text()`'s value, where `None` is coerced to `""` by `or ""`. -/
def pyPageText (p : Except Unit (Option String)) : String :=
  match p with
  | .error _ => ""
  | .ok t => t.getD ""

/-- The PyPDF2 page loop: per-page failures are skipped (`except: continue`),
successful pages append `page.extract_text() or ""`, and the loop breaks once
the accumulated text is over the cap. -/
def pyLoop (acc : String) : List (Except Unit (Option String)) → String
  | [] => acc
  | p :: rest =>
    match p with
    | .error _ => pyLoop acc rest
    | .ok t =>
      let acc2 := acc ++ t.getD ""
      if acc2.length > PDF_CAP then acc2 else pyLoop acc2 rest

/-- Library-level outcomes feeding one call of `extract_text_from_pdf`. -/
structure PdfEnv where
  /-- `PYMUPDF_AVAILABLE` (the import succeeded). -/
  pymupdfAvailable : Bool
  /-- Outcome of the PyMuPDF `try` block: all page texts in order, or the
  partial accumulated text at the moment an exception was thrown. -/
  muResult : Except String (List String)
  /-- Outcome of PyPDF2 document open/iteration, with per-page outcomes. -/
  pyDoc : Except Unit (List (Except Unit (Option String)))

/-- The PyPDF2 fallback block (lines 59–75): runs on the `text` accumulated so
far (`text0`), raises `RuntimeError` only when the document-level `try`
throws. -/
def pypdfFallback (pyDoc : Except Unit (List (Except Unit (Option String))))
    (text0 : String) : Except String String :=
  match pyDoc with
  | .error _ => .error "PDF extraction failed with both PyMuPDF and PyPDF2"
  | .ok pages => .ok (pyStrip (pyLoop text0 pages))

/-- `extract_text_from_pdf` (lines 40–75): PyMuPDF first when available,
falling back to PyPDF2 — with the partial PyMuPDF text carried over, because
the Python code reuses the same `text` variable. -/
def extract_text_from_pdf (env : PdfEnv) : Except String String :=
  if env.pymupdfAvailable then
    match env.muResult with
    | .ok pages => .ok (pyStrip (muLoop "" pages))
    | .error carried => pypdfFallback env.pyDoc carried
  else pypdfFallback env.pyDoc ""

/-- Text carried from the PyMuPDF attempt into the PyPDF2 loop (empty when
PyMuPDF is unavailable or succeeded). -/
def muCarry (env : PdfEnv) : String :=
  if env.pymupdfAvailable then
    match env.muResult with
    | .ok _ => ""
    | .error carried => carried
  else ""

/-- The PyMuPDF page list (empty if the attempt threw). -/
def muPages (env : PdfEnv) : List String :=
  match env.muResult with
  | .ok pages => pages
  | .error _ => []

/-- The PyPDF2 page list (empty if the document failed to open). -/
def pyPages (env : PdfEnv) : List (Except Unit (Option String)) :=
  match env.pyDoc with
  | .ok pages => pages
  | .error _ => []

/-- Largest single-page text length seen by the PyMuPDF loop. -/
def muMaxLen (ps : List String) : Nat := ps.foldr (fun t m => max t.length m) 0

/-- Largest single-page text length seen by the PyPDF2 loop. -/
def pyMaxLen (ps : List (Except Unit (Option String))) : Nat :=
  ps.foldr (fun p m => max (pyPageText p).length m) 0

theorem muLoop_length_mono (acc : String) (ps : List String) :
    acc.length ≤ (muLoop acc ps).length := by
  induction ps generalizing acc with
  | nil => simp [muLoop]
  | cons t rest ih =>
    unfold muLoop
    by_cases h : (acc ++ t).length > PDF_CAP
    · simp only [h, if_true]
      simp [String.length_append]
    · simp only [h, if_false]
      calc acc.length ≤ (acc ++ t).length := by simp [String.length_append]
        _ ≤ (muLoop (acc ++ t) rest).length := ih _

theorem pyLoop_length_mono (acc : String) (ps : List (Except Unit (Option String))) :
    acc.length ≤ (pyLoop acc ps).length := by
  induction ps generalizing acc with
  | nil => simp [pyLoop]
  | cons p rest ih =>
    unfold pyLoop
    match p with
    | .error _ => exact ih acc
    | .ok t =>
      by_cases h : (acc ++ t.getD "").length > PDF_CAP
      · simp only [h, if_true]
        simp [String.length_append]
      · simp only [h, if_false]
        calc acc.length ≤ (acc ++ t.getD "").length := by simp [String.length_append]
          _ ≤ (pyLoop (acc ++ t.getD "") rest).length := ih _

theorem muLoop_length_le (acc : String) (ps : List String) :
    (muLoop acc ps).length ≤ max acc.length PDF_CAP + muMaxLen ps := by
  induction ps generalizing acc with
  | nil => simp [muLoop, muMaxLen]
  | cons t rest ih =>
    unfold muLoop
    by_cases h : (acc ++ t).length > PDF_CAP
    · simp only [h, if_true]
      rw [String.length_append]
      have h1 : acc.length ≤ max acc.length PDF_CAP := le_max_left _ _
      have h2 : t.length ≤ muMaxLen (t :: rest) := le_max_left _ _
      omega
    · simp only [h, if_false]
      have h1 := ih (acc ++ t)
      rw [String.length_append] at h h1
      have h2 : muMaxLen rest ≤ muMaxLen (t :: rest) := le_max_right _ _
      have h3 : PDF_CAP ≤ max acc.length PDF_CAP := le_max_right _ _
      omega

theorem pyMaxLen_cons (p : Except Unit (Option String))
    (ps : List (Except Unit (Option String))) :
    pyMaxLen (p :: ps) = max (pyPageText p).length (pyMaxLen ps) := rfl

theorem pyLoop_length_le (acc : String) (ps : List (Except Unit (Option String))) :
    (pyLoop acc ps).length ≤ max acc.length PDF_CAP + pyMaxLen ps := by
  induction ps generalizing acc with
  | nil => simp [pyLoop, pyMaxLen]
  | cons p rest ih =>
    cases p with
    | error e =>
      have h1 := ih acc
      have h2 : pyMaxLen rest ≤ max (pyPageText (Except.error e)).length (pyMaxLen rest) :=
        Nat.le_max_right _ _
      simp only [pyLoop, pyMaxLen_cons]
      omega
    | ok t =>
      simp only [pyLoop, pyMaxLen_cons, pyPageText]
      by_cases h : (acc ++ t.getD "").length > PDF_CAP
      · rw [if_pos h, String.length_append]
        have h1 : acc.length ≤ max acc.length PDF_CAP := Nat.le_max_left _ _
        have h2 : (t.getD "").length ≤ max (t.getD "").length (pyMaxLen rest) :=
          Nat.le_max_left _ _
        omega
      · rw [if_neg h]
        have h1 := ih (acc ++ t.getD "")
        rw [String.length_append] at h h1
        have h5 : acc.length + (t.getD "").length ≤ PDF_CAP := by omega
        have h6 : max (acc.length + (t.getD "").length) PDF_CAP = PDF_CAP :=
          Nat.max_eq_right h5
        rw [h6] at h1
        have h2 : pyMaxLen rest ≤ max (t.getD "").length (pyMaxLen rest) :=
          Nat.le_max_right _ _
        have h3 : PDF_CAP ≤ max acc.length PDF_CAP := Nat.le_max_right _ _
        omega

theorem extract_pdf_length_le (env : PdfEnv) :
    ((extract_text_from_pdf env).toOption.getD "").length ≤
      max (muCarry env).length PDF_CAP + muMaxLen (muPages env) + pyMaxLen (pyPages env) := by
  obtain ⟨avail, mu, py⟩ := env
  cases avail with
  | false =>
    cases py with
    | error e =>
      simp [extract_text_from_pdf, pypdfFallback, Except.toOption]
    | ok pages =>
      have h1 := (pyStrip_length_le (pyLoop "" pages)).trans (pyLoop_length_le "" pages)
      simp only [extract_text_from_pdf, pypdfFallback, muCarry, muPages, pyPages,
        Except.toOption, Option.getD, Bool.false_eq_true, if_false]
      omega
  | true =>
    cases mu with
    | ok pages =>
      have h1 := (pyStrip_length_le (muLoop "" pages)).trans (muLoop_length_le "" pages)
      simp only [extract_text_from_pdf, muCarry, muPages, pyPages,
        Except.toOption, Option.getD, eq_self_iff_true, if_true]
      omega
    | error carried =>
      cases py with
      | error e =>
        simp [extract_text_from_pdf, pypdfFallback, Except.toOption]
      | ok pages =>
        have h1 := (pyStrip_length_le (pyLoop carried pages)).trans
          (pyLoop_length_le carried pages)
        simp only [extract_text_from_pdf, pypdfFallback, muCarry, muPages, pyPages,
          Except.toOption, Option.getD, eq_self_iff_true, if_true]
        omega

/-! ### A single oversized page defeats the 10,000-character cap

The cap check happens *after* a page's text has been appended, so a page of
10,001 characters produces a 10,001-character result. -/

/-- A single PDF page whose extracted text is 10,001 copies of `a`. -/
def bigPage : String := String.mk (List.replicate 10001 'a')

/-- Environment for the counterexample: PyMuPDF unavailable, PyPDF2 opens the
document and finds exactly the one oversized page. -/
def bigPageEnv : PdfEnv :=
  { pymupdfAvailable := false
    muResult := .ok []
    pyDoc := .ok [.ok (some bigPage)] }

theorem stripCore_replicate_a (n : Nat) :
    stripCore (List.replicate n 'a') = List.replicate n 'a' := by
  have hdrop : List.dropWhile isPySpace (List.replicate n 'a') = List.replicate n 'a' := by
    cases n with
    | zero => rfl
    | succ m =>
      rw [List.replicate_succ]
      exact List.dropWhile_cons_of_neg (by decide)
  simp [stripCore, hdrop]

theorem pyStrip_replicate_a (n : Nat) :
    pyStrip (String.mk (List.replicate n 'a')) = String.mk (List.replicate n 'a') :=
  String.ext (stripCore_replicate_a n)

theorem pyStrip_bigPage : pyStrip bigPage = bigPage := pyStrip_replicate_a 10001

theorem bigPage_length : bigPage.length = 10001 := by
  show (List.replicate 10001 'a').length = 10001
  exact List.length_replicate 10001 'a'

theorem extract_pdf_bigPage :
    extract_text_from_pdf bigPageEnv = .ok bigPage := by
  have hloop : pyLoop "" [.ok (some bigPage)] = bigPage := by
    unfold pyLoop
    simp only [Option.getD, String.empty_append]
    split <;> rfl
  show Except.ok (pyStrip (pyLoop "" [.ok (some bigPage)])) = .ok bigPage
  rw [hloop, pyStrip_bigPage]

/-! ## DOCX extraction (`extract_text_from_docx`, src/app.py lines 77–85)

`docx.Document(path).paragraphs` is modelled as the list of paragraph texts
of a successfully parsed document (a parse failure raises before any
paragraph is read and aborts the whole extraction; nothing per-paragraph can
fail).  The loop appends `para.text + "\n"` for each paragraph and the
function returns `text.strip()`. -/

/-- The paragraph loop of `extract_text_from_docx`: `text += para.text + "\n"`. -/
def docxAccum (acc : String) : List String → String
  | [] => acc
  | p :: rest => docxAccum (acc ++ p ++ "\n") rest

/-- `extract_text_from_docx` on a successfully parsed document with the given
paragraph texts. -/
def extract_text_from_docx (paragraphs : List String) : String :=
  pyStrip (docxAccum "" paragraphs)

/-- Modelled from the spec: "reads paragraphs in order, joins with newline,
trims result" — the join the spec describes, to be compared with the
accumulating loop the code performs. -/
def joinNl : List String → String
  | [] => ""
  | [p] => p
  | p :: rest => p ++ "\n" ++ joinNl rest

theorem docxAccum_nonempty (ps : List String) :
    ∀ acc p, docxAccum acc (p :: ps) = acc ++ (joinNl (p :: ps) ++ "\n") := by
  induction ps with
  | nil =>
    intro acc p
    show acc ++ p ++ "\n" = acc ++ (p ++ "\n")
    rw [String.append_assoc]
  | cons p2 rest ih =>
    intro acc p
    show docxAccum (acc ++ p ++ "\n") (p2 :: rest) = _
    rw [ih]
    show _ = acc ++ ((p ++ "\n" ++ joinNl (p2 :: rest)) ++ "\n")
    rw [String.append_assoc, String.append_assoc, String.append_assoc,
      String.append_assoc]

theorem extract_docx_eq_joinNl (paragraphs : List String) :
    extract_text_from_docx paragraphs = pyStrip (joinNl paragraphs) := by
  cases paragraphs with
  | nil => rfl
  | cons p rest =>
    unfold extract_text_from_docx
    rw [docxAccum_nonempty, String.empty_append]
    exact pyStrip_append_newline _

/-! ## Inference payloads (`ask_groq` and `summarize_text`, lines 95–123)

Each function makes a single `client.chat.completions.create` call; the
payload it constructs is modelled as a `ChatRequest`.  The remote response
and the `RuntimeError` wrapping of transport failures are outside the model
(they carry no structure beyond pass-through). -/

/-- One element of the `messages` array of a chat-completion call. -/
structure ChatMessage where
  role : String
  content : String
  deriving DecidableEq

/-- The payload of a `client.chat.completions.create` call. -/
structure ChatRequest where
  model : String
  messages : List ChatMessage
  /-- Sampling temperature, an exact rational (`0.3` in the code). -/
  temperature : ℚ
  max_tokens : Nat
  deriving DecidableEq

/-- The payload built by `ask_groq(question, context)` (lines 95–108). -/
def ask_groq_request (question context : String) : ChatRequest :=
  { model := "llama3-8b-8192"
    messages := [⟨"system", "You are a helpful assistant."⟩,
                 ⟨"user", "Context: " ++ context ++ "\n\nQuestion: " ++ question⟩]
    temperature := 3/10
    max_tokens := 500 }

/-- The payload built by `summarize_text(text)` (lines 110–123). -/
def summarize_text_request (text : String) : ChatRequest :=
  { model := "llama3-8b-8192"
    messages := [⟨"system", "You are a helpful summarizer."⟩,
                 ⟨"user", "Summarize the following text:\n" ++ text⟩]
    temperature := 3/10
    max_tokens := 300 }

/-! ## Request orchestration (`/ask`, `/qa`, `/summarize`, lines 132–200)

The `/ask` handler is modelled as a pure function of the request, an
environment of external outcomes (`AskEnv`) and an explicit file-system state
(the list of paths present in the upload folder).  It returns the HTTP status,
the ordered trace of external operations performed, and the final file-system
state.  `file.save(path)` adds `path` to the file system; the handler never
removes anything.

`request.files.get("file")` yields `none` when the part is absent; werkzeug's
`FileStorage.__bool__` is the truthiness of its `filename`, so `if file:` is
false for a present file part with an empty filename — modelled by the
`rawName = ""` guard.  `secure_filename` is external-library code and enters
the model as the environment's `secure` function. -/

/-- One observable external operation performed by the `/ask` handler. -/
inductive AskEvent where
  /-- `fetch_article_text(url)` was called. -/
  | fetchUrl (url : String)
  /-- `file.save(path)` was called. -/
  | saveFile (path : String)
  /-- `extract_text_from_pdf(path)` was called. -/
  | extractPdf (path : String)
  /-- `extract_text_from_docx(path)` was called. -/
  | extractDocx (path : String)
  /-- `ask_groq(question, context)` was called. -/
  | invokeAnswer (question context : String)
  /-- `summarize_text(text)` was called. -/
  | invokeSummarize (text : String)
  deriving DecidableEq

/-- Outcomes of the external collaborators of the route handlers.  Errors are
the `RuntimeError`s raised by the helper functions (caught by the route's
`except` and mapped to a 500). -/
structure AskEnv where
  /-- `app.config["UPLOAD_FOLDER"]` (`tempfile.gettempdir()`). -/
  uploadFolder : String
  /-- werkzeug's `secure_filename`. -/
  secure : String → String
  /-- Outcome of `fetch_article_text` on a given url. -/
  fetchResult : String → Except Unit String
  /-- Outcome of `extract_text_from_pdf` on a given path. -/
  pdfResult : String → Except Unit String
  /-- Outcome of `extract_text_from_docx` on a given path. -/
  docxResult : String → Except Unit String
  /-- Outcome of `ask_groq question context`. -/
  answerResult : String → String → Except Unit String
  /-- Outcome of `summarize_text text`. -/
  summarizeResult : String → Except Unit String

/-- An inbound multipart `/ask` request: an optional file part (its declared
filename) and the raw `question` and `url` form fields (absent fields arrive
as `""` via `request.form.get(..., "")`). -/
structure AskRequest where
  file : Option String
  question : String
  url : String

/-- What one `/ask` request produced: HTTP status, trace of external
operations in order, and the final upload-folder contents. -/
structure AskResponse where
  status : Nat
  events : List AskEvent
  fs : List String
  deriving DecidableEq

/-- The body of the `/ask` handler after the two `.strip()` calls: `question`
and `url` here are the already-stripped values (lines 136–162). -/
def askCore (env : AskEnv) (fs : List String) (file : Option String)
    (question url : String) : AskResponse :=
  if question = "" ∧ url = "" then ⟨400, [], fs⟩
  else if url ≠ "" then
    match env.fetchResult url with
    | .error _ => ⟨500, [.fetchUrl url], fs⟩
    | .ok text =>
      if question = "" then
        match env.summarizeResult text with
        | .error _ => ⟨500, [.fetchUrl url, .invokeSummarize text], fs⟩
        | .ok _ => ⟨200, [.fetchUrl url, .invokeSummarize text], fs⟩
      else
        match env.answerResult question text with
        | .error _ => ⟨500, [.fetchUrl url, .invokeAnswer question text], fs⟩
        | .ok _ => ⟨200, [.fetchUrl url, .invokeAnswer question text], fs⟩
  else
    match file with
    | none => ⟨400, [], fs⟩
    | some rawName =>
      if rawName = "" then ⟨400, [], fs⟩
      else
        let filename := env.secure rawName
        let path := env.uploadFolder ++ "/" ++ filename
        let fs1 := path :: fs
        if pyEndsWith (pyLower filename) ".pdf" then
          match env.pdfResult path with
          | .error _ => ⟨500, [.saveFile path, .extractPdf path], fs1⟩
          | .ok text =>
            match env.answerResult question text with
            | .error _ =>
              ⟨500, [.saveFile path, .extractPdf path, .invokeAnswer question text], fs1⟩
            | .ok _ =>
              ⟨200, [.saveFile path, .extractPdf path, .invokeAnswer question text], fs1⟩
        else if pyEndsWith (pyLower filename) ".docx" then
          match env.docxResult path with
          | .error _ => ⟨500, [.saveFile path, .extractDocx path], fs1⟩
          | .ok text =>
            match env.answerResult question text with
            | .error _ =>
              ⟨500, [.saveFile path, .extractDocx path, .invokeAnswer question text], fs1⟩
            | .ok _ =>
              ⟨200, [.saveFile path, .extractDocx path, .invokeAnswer question text], fs1⟩
        else ⟨400, [.saveFile path], fs1⟩

/-- The `/ask` route handler (lines 132–169). -/
def ask (env : AskEnv) (fs : List String) (req : AskRequest) : AskResponse :=
  askCore env fs req.file (pyStrip req.question) (pyStrip req.url)

/-- The `/qa` route handler (lines 171–185), returning the HTTP status. -/
def qa (env : AskEnv) (question context : String) : Nat :=
  let q := pyStrip question
  let c := pyStrip context
  if q = "" ∨ c = "" then 400
  else
    match env.answerResult q c with
    | .error _ => 500
    | .ok _ => 200

/-- The `/summarize` route handler (lines 187–200), returning the HTTP
status. -/
def summarize (env : AskEnv) (text : String) : Nat :=
  let t := pyStrip text
  if t = "" then 400
  else
    match env.summarizeResult t with
    | .error _ => 500
    | .ok _ => 200

/-- A concrete, everything-succeeds environment used by witnesses and
counterexamples: `secure_filename` is the identity (its value on the plain
names used below) and every external call succeeds. -/
def oracleEnv : AskEnv :=
  { uploadFolder := "/tmp"
    secure := fun s => s
    fetchResult := fun _ => .ok "body"
    pdfResult := fun _ => .ok "pdf text"
    docxResult := fun _ => .ok "docx text"
    answerResult := fun _ _ => .ok "answer"
    summarizeResult := fun _ => .ok "summary" }

/-! ## Claims -/

/-- C1 (counterexample): the output of `extract_text_from_pdf` is *not*
capped at 10,000 characters — a document consisting of one page of 10,001
characters extracts, successfully, to 10,001 characters, because the
`len(text) > 10000` check runs only after a page has been appended. -/
theorem pdf_cap_exceeded :
    10000 < ((extract_text_from_pdf bigPageEnv).toOption.getD "").length := by
  rw [extract_pdf_bigPage]
  show 10000 < bigPage.length
  rw [bigPage_length]
  omega

/-- C1 (amended): the accumulated text is monotonically non-decreasing in
character count as pages are processed (both page loops only append), and the
10,000-character check is an early-stop, not an output cap: each loop's
result is bounded by `max (start length) 10000` plus the largest single
page's text, and the returned text is bounded by `max (PyMuPDF carry-over)
10000` plus the largest page texts of the two engines — it can exceed 10,000
by up to one page's length. -/
theorem pdf_monotone_and_stop_bound :
    (∀ acc ps, acc.length ≤ (muLoop acc ps).length) ∧
    (∀ acc ps, acc.length ≤ (pyLoop acc ps).length) ∧
    (∀ acc ps, (muLoop acc ps).length ≤ max acc.length PDF_CAP + muMaxLen ps) ∧
    (∀ acc ps, (pyLoop acc ps).length ≤ max acc.length PDF_CAP + pyMaxLen ps) ∧
    (∀ env, ((extract_text_from_pdf env).toOption.getD "").length ≤
      max (muCarry env).length PDF_CAP + muMaxLen (muPages env) + pyMaxLen (pyPages env)) :=
  ⟨muLoop_length_mono, pyLoop_length_mono, muLoop_length_le, pyLoop_length_le,
   extract_pdf_length_le⟩

/-- C4: in the PyPDF2 loop a page that throws is skipped — the loop continues
on the remaining pages exactly as if the bad page were absent — and a
document that PyPDF2 opened never aborts, whatever its pages do: the fallback
returns `.ok` on every page list. -/
theorem pdf_page_failure_skipped :
    (∀ (acc : String) (e : Unit) (rest : List (Except Unit (Option String))),
      pyLoop acc (.error e :: rest) = pyLoop acc rest) ∧
    (∀ (pages : List (Except Unit (Option String))) (text0 : String),
      pypdfFallback (.ok pages) text0 = .ok (pyStrip (pyLoop text0 pages))) :=
  ⟨fun _ _ _ => rfl, fun _ _ => rfl⟩

/-- C7: `extract_text_from_docx` concatenates the paragraphs in order with a
newline after each and strips the result, which coincides with joining the
paragraphs on a newline separator and trimming; in particular
`["Hello", "World"]` extracts to `"Hello\nWorld"`. -/
theorem docx_join_newline_trim :
    (∀ paragraphs, extract_text_from_docx paragraphs = pyStrip (joinNl paragraphs)) ∧
    extract_text_from_docx ["Hello", "World"] = "Hello\nWorld" :=
  ⟨extract_docx_eq_joinNl, by decide⟩

/-- C8: every inference payload has exactly two messages — the fixed system
prompt ("helpful assistant" for ANSWER, "helpful summarizer" for SUMMARIZE)
followed by one user message — temperature 0.3 for both operations, and a
500-token output cap for ANSWER versus 300 for SUMMARIZE. -/
theorem inference_request_shape :
    ∀ question context text : String,
      (ask_groq_request question context).messages.length = 2 ∧
      (ask_groq_request question context).messages.map ChatMessage.role = ["system", "user"] ∧
      ((ask_groq_request question context).messages.head?.map ChatMessage.content =
        some "You are a helpful assistant.") ∧
      (ask_groq_request question context).temperature = 3/10 ∧
      (ask_groq_request question context).max_tokens = 500 ∧
      (summarize_text_request text).messages.length = 2 ∧
      (summarize_text_request text).messages.map ChatMessage.role = ["system", "user"] ∧
      ((summarize_text_request text).messages.head?.map ChatMessage.content =
        some "You are a helpful summarizer.") ∧
      (summarize_text_request text).temperature = 3/10 ∧
      (summarize_text_request text).max_tokens = 300 :=
  fun _ _ _ => ⟨rfl, rfl, rfl, rfl, rfl, rfl, rfl, rfl, rfl, rfl⟩

/-- C10 (counterexample): a document whose every PyPDF2 page fails does *not*
always extract to the empty string — if the earlier PyMuPDF attempt threw
after accumulating partial text, that text is kept (the Python code reuses
the same `text` variable across the two engines) and returned. -/
theorem pdf_carryover_not_empty :
    extract_text_from_pdf ⟨true, .error "partial", .ok [.error ()]⟩ = .ok "partial" ∧
    ("partial" : String) ≠ "" := by
  constructor
  · rfl
  · decide

/-- C10 (amended): when the PyPDF2 engine opens the document and every page
either throws or yields no text, extraction succeeds with the stripped
carry-over text — the empty string whenever PyMuPDF contributed nothing, in
particular whenever PyMuPDF is unavailable — and an extraction error is
raised only when PyPDF2's document-level open/parse throws. -/
theorem pdf_empty_pages_ok :
    (∀ (pages : List (Except Unit (Option String))) (text0 : String),
      (∀ p ∈ pages, pyPageText p = "") →
      pypdfFallback (.ok pages) text0 = .ok (pyStrip text0)) ∧
    (∀ env msg, extract_text_from_pdf env = .error msg → env.pyDoc.isOk = false) := by
  constructor
  · intro pages text0 hall
    have hloop : ∀ acc, (∀ p ∈ pages, pyPageText p = "") → pyLoop acc pages = acc := by
      clear hall
      induction pages with
      | nil => intro acc _; rfl
      | cons p rest ih =>
        intro acc hall
        cases p with
        | error e =>
          show pyLoop acc rest = acc
          exact ih acc (fun q hq => hall q (List.mem_cons_of_mem _ hq))
        | ok t =>
          have ht : t.getD "" = "" := hall (.ok t) (List.mem_cons_self _ _)
          show (let acc2 := acc ++ t.getD "";
            if acc2.length > PDF_CAP then acc2 else pyLoop acc2 rest) = acc
          rw [ht, String.append_empty]
          by_cases h : acc.length > PDF_CAP
          · rw [if_pos h]
          · rw [if_neg h]
            exact ih acc (fun q hq => hall q (List.mem_cons_of_mem _ hq))
    show Except.ok (pyStrip (pyLoop text0 pages)) = .ok (pyStrip text0)
    rw [hloop text0 hall]
  · intro env msg h
    obtain ⟨avail, mu, py⟩ := env
    cases py with
    | error e => rfl
    | ok pages =>
      exfalso
      cases avail with
      | false => exact Except.noConfusion h
      | true =>
        cases mu with
        | ok ps => exact Except.noConfusion h
        | error carried => exact Except.noConfusion h

/-- C10 (witness): a PyMuPDF-unavailable document whose only page throws
extracts to the empty string, and a document-level PyPDF2 failure is indeed
the only way `extract_text_from_pdf` errors. -/
theorem pdf_empty_pages_ok_witness :
    pypdfFallback (.ok [.error ()]) "" = .ok "" ∧
    (⟨false, .ok [], .error ()⟩ : PdfEnv).pyDoc.isOk = false :=
  ⟨pdf_empty_pages_ok.1 [.error ()] "" (by decide),
   pdf_empty_pages_ok.2 ⟨false, .ok [], .error ()⟩
     "PDF extraction failed with both PyMuPDF and PyPDF2" rfl⟩

/-- A `/ask` file part that cannot reach an extractor: absent, falsy (empty
filename), or with a sanitized filename ending in neither `.pdf` nor `.docx`
(case-insensitive). -/
def askFileRejected (env : AskEnv) (file : Option String) : Prop :=
  match file with
  | none => True
  | some raw =>
    raw = "" ∨
      (pyEndsWith (pyLower (env.secure raw)) ".pdf" = false ∧
        pyEndsWith (pyLower (env.secure raw)) ".docx" = false)

/-- The exact condition under which `/ask` answers 400: both stripped
`question` and `url` empty (whatever the file), or `url` empty with a
non-empty `question` but no file that reaches an extractor. -/
def ask400Cond (env : AskEnv) (req : AskRequest) : Prop :=
  (pyStrip req.question = "" ∧ pyStrip req.url = "") ∨
    (pyStrip req.url = "" ∧ pyStrip req.question ≠ "" ∧ askFileRejected env req.file)

theorem askCore_status_400 (env : AskEnv) (fs : List String) (file : Option String)
    (q u : String) :
    (askCore env fs file q u).status = 400 ↔
      ((q = "" ∧ u = "") ∨ (u = "" ∧ q ≠ "" ∧ askFileRejected env file)) := by
  constructor
  · intro h
    unfold askCore at h
    by_cases h1 : q = "" ∧ u = ""
    · exact Or.inl h1
    · rw [if_neg h1] at h
      by_cases hu : u = ""
      · rw [if_neg (not_not_intro hu)] at h
        refine Or.inr ⟨hu, fun hq => h1 ⟨hq, hu⟩, ?_⟩
        unfold askFileRejected
        cases file with
        | none => trivial
        | some raw =>
          simp only [] at h ⊢
          by_cases hr : raw = ""
          · exact Or.inl hr
          · rw [if_neg hr] at h
            by_cases hpdf : pyEndsWith (pyLower (env.secure raw)) ".pdf" = true
            · exfalso
              rw [if_pos hpdf] at h
              repeat' split at h
              all_goals simp at h
            · rw [if_neg hpdf] at h
              by_cases hdocx : pyEndsWith (pyLower (env.secure raw)) ".docx" = true
              · exfalso
                rw [if_pos hdocx] at h
                repeat' split at h
                all_goals simp at h
              · exact Or.inr ⟨Bool.not_eq_true _ ▸ hpdf, Bool.not_eq_true _ ▸ hdocx⟩
      · exfalso
        rw [if_pos hu] at h
        repeat' split at h
        all_goals simp at h
  · intro h
    unfold askCore
    rcases h with ⟨hq, hu⟩ | ⟨hu, hq, hfile⟩
    · rw [if_pos ⟨hq, hu⟩]
    · rw [if_neg (fun hc => hq hc.1), if_neg (not_not_intro hu)]
      unfold askFileRejected at hfile
      cases file with
      | none => rfl
      | some raw =>
        simp only [] at hfile ⊢
        by_cases hr : raw = ""
        · rw [if_pos hr]
        · rw [if_neg hr]
          rcases hfile with hr2 | ⟨hpdf, hdocx⟩
          · exact absurd hr2 hr
          · rw [if_neg (by simp [hpdf]), if_neg (by simp [hdocx])]

/-- C2 (counterexample): a request carrying only an uploaded file — no
question, no url — *is* rejected with 400 (line 139 fires before the file is
even looked at) and nothing is extracted, contradicting the claim that such a
request proceeds to extraction. -/
theorem ask_file_only_rejected :
    (ask oracleEnv [] ⟨some "doc.pdf", "", ""⟩).status = 400 ∧
    (ask oracleEnv [] ⟨some "doc.pdf", "", ""⟩).events = [] := by
  constructor
  · decide
  · decide

/-- C2 (amended): `/ask` returns 400 exactly when the stripped `question` and
`url` are both empty (whatever file is attached), or when `url` is empty and a
`question` is present but no file part reaches an extractor (file absent,
falsy, or with an extension other than `.pdf`/`.docx`). -/
theorem ask_bad_request_iff :
    ∀ env fs req, (ask env fs req).status = 400 ↔ ask400Cond env req :=
  fun env fs req =>
    askCore_status_400 env fs req.file (pyStrip req.question) (pyStrip req.url)

/-- C2 (witness): the amended condition applied at a concrete empty request. -/
theorem ask_bad_request_iff_witness :
    (ask oracleEnv [] ⟨none, "", ""⟩).status = 400 :=
  (ask_bad_request_iff oracleEnv [] ⟨none, "", ""⟩).mpr (Or.inl ⟨rfl, rfl⟩)

/-- C3 (counterexample): the uploaded file is *not* discarded — after a
file+question request completes, the saved path is still present in the
upload folder (the handler never deletes it). -/
theorem ask_upload_not_discarded :
    "/tmp/doc.pdf" ∈ (ask oracleEnv [] ⟨some "doc.pdf", "q", ""⟩).fs := by
  decide

/-- C3 (amended): a request that reaches the file branch (no url, non-blank
question, usable file) writes the file to the upload folder under its
sanitized filename and the file remains there when the request completes;
requests with a url never touch the file system at all. -/
theorem ask_upload_persists (env : AskEnv) (fs : List String) (req : AskRequest) :
    (∀ raw, req.file = some raw → raw ≠ "" → pyStrip req.url = "" →
      pyStrip req.question ≠ "" →
      (env.uploadFolder ++ "/" ++ env.secure raw) ∈ (ask env fs req).fs) ∧
    (pyStrip req.url ≠ "" → (ask env fs req).fs = fs) := by
  constructor
  · intro raw hf hu hq hqne
    unfold ask askCore
    rw [hf, if_neg (fun hc => hqne hc.1), if_neg (not_not_intro hq)]
    simp only []
    rw [if_neg hu]
    repeat' split
    all_goals exact List.mem_cons_self _ _
  · intro hu
    unfold ask askCore
    rw [if_neg (fun hc => hu hc.2), if_pos hu]
    repeat' split
    all_goals rfl

/-- C3 (witness): the amended persistence fact at a concrete request. -/
theorem ask_upload_persists_witness :
    "/tmp/a.pdf" ∈ (ask oracleEnv [] ⟨some "a.pdf", "q", ""⟩).fs :=
  (ask_upload_persists oracleEnv [] ⟨some "a.pdf", "q", ""⟩).1 "a.pdf" rfl
    (by decide) rfl (by decide)

theorem askCore_url_events_err (env : AskEnv) (fs : List String)
    (file : Option String) (q u : String) (hu : u ≠ "") (e : Unit)
    (hget : env.fetchResult u = .error e) :
    (askCore env fs file q u).events = [.fetchUrl u] := by
  unfold askCore
  rw [if_neg (fun hc => hu hc.2), if_pos hu]
  split
  next e2 heq => rfl
  next t heq => rw [heq] at hget; exact Except.noConfusion hget

theorem askCore_url_events_ok (env : AskEnv) (fs : List String)
    (file : Option String) (q u text : String) (hu : u ≠ "")
    (hget : env.fetchResult u = .ok text) :
    (askCore env fs file q u).events =
      if q = "" then [.fetchUrl u, .invokeSummarize text]
      else [.fetchUrl u, .invokeAnswer q text] := by
  unfold askCore
  rw [if_neg (fun hc => hu hc.2), if_pos hu]
  split
  next e2 heq => rw [heq] at hget; exact Except.noConfusion hget
  next t heq =>
    rw [heq] at hget
    injection hget with hh
    subst hh
    by_cases hq : q = ""
    · simp only [if_pos hq]
      split <;> rfl
    · simp only [if_neg hq]
      split <;> rfl

/-- C5: on the url path, a request without a question invokes the summarize
operation on the fetched text (and never the answer operation), a request
with a question invokes the answer operation with that question against the
fetched text, and the answer operation is never invoked on the url path
without a question. -/
theorem ask_url_dispatch (env : AskEnv) (fs : List String) (req : AskRequest)
    (hu : pyStrip req.url ≠ "") :
    (∀ text, env.fetchResult (pyStrip req.url) = .ok text →
      (pyStrip req.question = "" →
        AskEvent.invokeSummarize text ∈ (ask env fs req).events ∧
        ∀ q c, AskEvent.invokeAnswer q c ∉ (ask env fs req).events) ∧
      (pyStrip req.question ≠ "" →
        AskEvent.invokeAnswer (pyStrip req.question) text ∈ (ask env fs req).events)) ∧
    (∀ q c, AskEvent.invokeAnswer q c ∈ (ask env fs req).events →
      pyStrip req.question ≠ "") := by
  constructor
  · intro text hget
    have hev : (ask env fs req).events = _ :=
      askCore_url_events_ok env fs req.file (pyStrip req.question) (pyStrip req.url)
        text hu hget
    constructor
    · intro hq
      rw [hev, if_pos hq]
      constructor
      · simp
      · intro q c
        simp
    · intro hq
      rw [hev, if_neg hq]
      simp
  · intro q c hmem hq
    rcases hget : env.fetchResult (pyStrip req.url) with e | t
    · have hev : (ask env fs req).events = _ :=
        askCore_url_events_err env fs req.file (pyStrip req.question) (pyStrip req.url)
          hu e hget
      rw [hev] at hmem
      simp at hmem
    · have hev : (ask env fs req).events = _ :=
        askCore_url_events_ok env fs req.file (pyStrip req.question) (pyStrip req.url)
          t hu hget
      rw [hev, if_pos hq] at hmem
      simp at hmem

/-- C5 (witness): a concrete url-only request invokes summarize. -/
theorem ask_url_dispatch_witness :
    AskEvent.invokeSummarize "body" ∈ (ask oracleEnv [] ⟨none, "", "http://x"⟩).events :=
  (((ask_url_dispatch oracleEnv [] ⟨none, "", "http://x"⟩ (by decide)).1
    "body" rfl).1 rfl).1

/-- C6 (counterexample): an uploaded file whose name ends in neither `.pdf`
nor `.docx` does *not* always produce the unsupported-file-type 400 — when a
url is also supplied, the url takes priority: the request succeeds with 200
and the remote-article extractor runs. -/
theorem ask_unsupported_with_url :
    (ask oracleEnv [] ⟨some "x.txt", "", "http://e"⟩).status = 200 ∧
    AskEvent.fetchUrl "http://e" ∈ (ask oracleEnv [] ⟨some "x.txt", "", "http://e"⟩).events := by
  constructor
  · decide
  · decide

/-- C6 (amended): for a request that reaches the file branch (no url,
non-blank question) with a usable file whose sanitized filename ends in
neither `.pdf` nor `.docx` (after lowercasing), the handler answers 400
having performed only the `file.save` — no PDF, DOCX or url extractor is
invoked. -/
theorem ask_unsupported_no_extraction (env : AskEnv) (fs : List String)
    (req : AskRequest) (raw : String)
    (hu : pyStrip req.url = "") (hq : pyStrip req.question ≠ "")
    (hf : req.file = some raw) (hr : raw ≠ "")
    (hpdf : pyEndsWith (pyLower (env.secure raw)) ".pdf" = false)
    (hdocx : pyEndsWith (pyLower (env.secure raw)) ".docx" = false) :
    (ask env fs req).status = 400 ∧
    (ask env fs req).events = [.saveFile (env.uploadFolder ++ "/" ++ env.secure raw)] ∧
    (∀ p, AskEvent.extractPdf p ∉ (ask env fs req).events) ∧
    (∀ p, AskEvent.extractDocx p ∉ (ask env fs req).events) ∧
    (∀ u2, AskEvent.fetchUrl u2 ∉ (ask env fs req).events) := by
  have hresp : ask env fs req =
      ⟨400, [.saveFile (env.uploadFolder ++ "/" ++ env.secure raw)],
        (env.uploadFolder ++ "/" ++ env.secure raw) :: fs⟩ := by
    unfold ask askCore
    rw [hf, if_neg (fun hc => hq hc.1), if_neg (not_not_intro hu)]
    simp only []
    rw [if_neg hr, if_neg (by simp [hpdf]), if_neg (by simp [hdocx])]
  rw [hresp]
  refine ⟨rfl, rfl, ?_, ?_, ?_⟩ <;> intro x <;> simp

/-- C6 (witness): the amended fact at a concrete `.txt` upload. -/
theorem ask_unsupported_no_extraction_witness :
    (ask oracleEnv [] ⟨some "x.txt", "q", ""⟩).status = 400 :=
  (ask_unsupported_no_extraction oracleEnv [] ⟨some "x.txt", "q", ""⟩ "x.txt"
    rfl (by decide) rfl (by decide) (by decide) (by decide)).1

/-- C9: every route strips its string inputs before validating, so a
whitespace-only value behaves exactly like a missing one: `/qa` answers 400
when `question` or `context` is blank, `/summarize` answers 400 when `text`
is blank, and `/ask` treats a blank `question` or `url` exactly as the empty
(absent) field. -/
theorem blank_input_handling :
    (∀ env q c, pyBlank q = true → qa env q c = 400) ∧
    (∀ env q c, pyBlank c = true → qa env q c = 400) ∧
    (∀ env t, pyBlank t = true → summarize env t = 400) ∧
    (∀ env fs f q u, pyBlank q = true →
      ask env fs ⟨f, q, u⟩ = ask env fs ⟨f, "", u⟩) ∧
    (∀ env fs f q u, pyBlank u = true →
      ask env fs ⟨f, q, u⟩ = ask env fs ⟨f, q, ""⟩) := by
  refine ⟨?_, ?_, ?_, ?_, ?_⟩
  · intro env q c hb
    simp only [qa]
    rw [if_pos (Or.inl (pyStrip_of_blank hb))]
  · intro env q c hb
    simp only [qa]
    rw [if_pos (Or.inr (pyStrip_of_blank hb))]
  · intro env t hb
    simp only [summarize]
    rw [if_pos (pyStrip_of_blank hb)]
  · intro env fs f q u hb
    simp only [ask]
    rw [pyStrip_of_blank hb, pyStrip_empty]
  · intro env fs f q u hb
    simp only [ask]
    rw [pyStrip_of_blank hb, pyStrip_empty]

/-- C9 (witness): blank-input behaviour at concrete requests. -/
theorem blank_input_handling_witness :
    qa oracleEnv "  " "ctx" = 400 ∧
    summarize oracleEnv " " = 400 ∧
    ask oracleEnv [] ⟨none, " ", "http://x"⟩ = ask oracleEnv [] ⟨none, "", "http://x"⟩ :=
  ⟨blank_input_handling.1 oracleEnv "  " "ctx" (by decide),
   blank_input_handling.2.2.1 oracleEnv " " (by decide),
   blank_input_handling.2.2.2.1 oracleEnv [] none " " "http://x" (by decide)⟩

end PDFQA
